import Mathlib

/-!
Verification of the weatherApp command-line program (src/main.py) against its
natural-language specification.  The program is embedded shallowly: pure
helpers of main.py become Lean functions, the process-terminating fetcher
becomes a function into an explicit outcome type, and the terminal printer
becomes a function producing the printed fields (or a Python-style uncaught
error for missing JSON fields).
-/

/-- Modelled from the spec: the style module (imported by src/main.py but not
present under src/) supplies terminal color escape-code constants.  The
colors are represented as abstract tokens; their escape sequences are
irrelevant to every claim. -/
inductive Color where
  | RED
  | CYAN
  | BLUE
  | WHITE
  | YELLOW
  | RESET

/-- Embeds BASE_WEATHER_API_URL from src/main.py line 8. -/
def BASE_WEATHER_API_URL : String := "http://api.openweathermap.org/data/2.5/weather"

/-- Embeds THUNDERSTORM = range(200, 300) from src/main.py line 12.
A Python range(a, b) with step 1 is modelled as the pair (a, b); integer
membership is a le x and x lt b. -/
def THUNDERSTORM : Int × Int := (200, 300)

/-- Embeds DRIZZLE = range(300, 400) from src/main.py line 13. -/
def DRIZZLE : Int × Int := (300, 400)

/-- Embeds RAIN = range(500, 600) from src/main.py line 14. -/
def RAIN : Int × Int := (500, 600)

/-- Embeds SNOW = range(600, 700) from src/main.py line 15. -/
def SNOW : Int × Int := (600, 700)

/-- Embeds ATMOSPHERE = range(700, 800) from src/main.py line 16. -/
def ATMOSPHERE : Int × Int := (700, 800)

/-- Embeds CLEAR = range(800, 801) from src/main.py line 17. -/
def CLEAR : Int × Int := (800, 801)

/-- Embeds CLOUDY = range(801, 900) from src/main.py line 18. -/
def CLOUDY : Int × Int := (801, 900)

/-- Python integer membership x in range(a, b): a le x and x lt b. -/
def memRange (x : Int) (r : Int × Int) : Bool :=
  decide (r.1 ≤ x ∧ x < r.2)

/-- Embeds _select_weather_display_params from src/main.py lines 101-118:
the if/elif chain over the range constants, with the rainbow fallback for
any code outside every range. -/
def _select_weather_display_params (weather_id : Int) : String × Color :=
  if memRange weather_id THUNDERSTORM then ("💥", Color.RED)
  else if memRange weather_id DRIZZLE then ("💧", Color.CYAN)
  else if memRange weather_id RAIN then ("💦", Color.BLUE)
  else if memRange weather_id SNOW then ("⛄️", Color.WHITE)
  else if memRange weather_id ATMOSPHERE then ("🌀", Color.BLUE)
  else if memRange weather_id CLEAR then ("🔆", Color.YELLOW)
  else if memRange weather_id CLOUDY then ("💨", Color.WHITE)
  else ("🌈", Color.RESET)

/-- The display-bucket table exactly as claim C3 states it, written from the
claim wording (inclusive bounds, exact 800, fallback for everything else);
to be compared with the function embedded from the source. -/
def claimed_bucket (weather_id : Int) : String × Color :=
  if 200 ≤ weather_id ∧ weather_id ≤ 299 then ("💥", Color.RED)
  else if 300 ≤ weather_id ∧ weather_id ≤ 399 then ("💧", Color.CYAN)
  else if 500 ≤ weather_id ∧ weather_id ≤ 599 then ("💦", Color.BLUE)
  else if 600 ≤ weather_id ∧ weather_id ≤ 699 then ("⛄️", Color.WHITE)
  else if 700 ≤ weather_id ∧ weather_id ≤ 799 then ("🌀", Color.BLUE)
  else if weather_id = 800 then ("🔆", Color.YELLOW)
  else if 801 ≤ weather_id ∧ weather_id ≤ 899 then ("💨", Color.WHITE)
  else ("🌈", Color.RESET)

set_option maxHeartbeats 1600000 in
/-- Claim C3: for every integer weather condition code,
_select_weather_display_params returns exactly the (symbol, color) bucket of
the claimed range table — 200-299 Thunderstorm, 300-399 Drizzle, 500-599
Rain, 600-699 Snow, 700-799 Atmosphere, exactly 800 Clear, 801-899 Cloudy,
and every other code (including 400-499 and codes at or above 900) the
rainbow fallback — and, being a total Lean function, the lookup never
raises on any input. -/
theorem select_weather_display_params_matches_table :
    ∀ weather_id : Int,
      _select_weather_display_params weather_id = claimed_bucket weather_id := by
  intro id
  unfold _select_weather_display_params claimed_bucket
  simp only [memRange, THUNDERSTORM, DRIZZLE, RAIN, SNOW, ATMOSPHERE, CLEAR, CLOUDY,
    decide_eq_true_eq]
  split_ifs <;> first | rfl | omega

/-- Uppercase hexadecimal digit, as used by Python urllib percent-encoding. -/
def hexDigitChar (n : Nat) : Char :=
  match n with
  | 0 => '0' | 1 => '1' | 2 => '2' | 3 => '3' | 4 => '4'
  | 5 => '5' | 6 => '6' | 7 => '7' | 8 => '8' | 9 => '9'
  | 10 => 'A' | 11 => 'B' | 12 => 'C' | 13 => 'D' | 14 => 'E' | 15 => 'F'
  | _ => '0'

/-- The bytes urllib.parse.quote leaves unescaped (ALWAYS_SAFE with the
default empty safe set of quote_plus): ASCII letters, digits, and the
characters underscore, dot, hyphen, tilde. -/
def isSafeByte (b : Nat) : Bool :=
  (65 ≤ b && b ≤ 90) || (97 ≤ b && b ≤ 122) || (48 ≤ b && b ≤ 57) ||
    b == 45 || b == 46 || b == 95 || b == 126

/-- UTF-8 encoding of one Unicode code point, as Python str.encode produces
before percent-encoding. -/
def utf8EncodeChar (c : Char) : List Nat :=
  let n := c.toNat
  if n < 128 then [n]
  else if n < 2048 then [192 + n / 64, 128 + n % 64]
  else if n < 65536 then [224 + n / 4096, 128 + (n / 64) % 64, 128 + n % 64]
  else [240 + n / 262144, 128 + (n / 4096) % 64, 128 + (n / 64) % 64, 128 + n % 64]

/-- UTF-8 bytes of a character sequence. -/
def utf8Bytes : List Char → List Nat
  | [] => []
  | c :: rest => utf8EncodeChar c ++ utf8Bytes rest

/-- Output characters urllib.parse.quote_plus produces for one input byte:
space becomes a plus sign, safe bytes pass through, every other byte becomes
a percent sign followed by two uppercase hex digits. -/
def byteChars (b : Nat) : List Char :=
  if b == 32 then ['+']
  else if isSafeByte b then [Char.ofNat b]
  else ['%', hexDigitChar (b / 16), hexDigitChar (b % 16)]

/-- Percent-encoded characters of a byte sequence. -/
def quotePlusChars : List Nat → List Char
  | [] => []
  | b :: rest => byteChars b ++ quotePlusChars rest

/-- Embeds urllib.parse.quote_plus with its default arguments, as called at
src/main.py line 48: UTF-8 encode, percent-encode every unsafe byte with
uppercase hex, and turn spaces into plus signs. -/
def quote_plus (s : String) : String :=
  String.mk (quotePlusChars (utf8Bytes s.data))

/-- Embeds build_weather_query from src/main.py lines 42-52.  The source
obtains the API key by calling _get_api_key (an external secret-store read
of secrets.ini); following the spec, section 9, the key is passed in as an
explicit configuration value. -/
def build_weather_query (city_input : List String) (imperial : Bool) (api_key : String) : String :=
  let city_name := String.intercalate " " city_input
  let url_encoded_city_name := quote_plus city_name
  let units := if imperial then "imperial" else "metric"
  (BASE_WEATHER_API_URL ++ "?q=" ++ url_encoded_city_name) ++
    ("&units=" ++ units ++ "&appid=" ++ api_key)

/-- Claim C5: for every city token list, imperial flag and api key,
build_weather_query produces the fixed base endpoint followed by the query
parameters q, units, appid in exactly that order, with units imperial when
the flag is set and metric otherwise. -/
theorem build_weather_query_shape :
    ∀ (city_input : List String) (imperial : Bool) (api_key : String),
      build_weather_query city_input imperial api_key =
        "http://api.openweathermap.org/data/2.5/weather" ++ "?q=" ++
          quote_plus (String.intercalate " " city_input) ++ "&units=" ++
          (if imperial then "imperial" else "metric") ++ "&appid=" ++ api_key := by
  intro city_input imperial api_key
  unfold build_weather_query BASE_WEATHER_API_URL
  simp only [String.append_assoc]

/-- A hex digit is never a space. -/
theorem hexDigitChar_ne_space (n : Nat) : hexDigitChar n ≠ ' ' := by
  unfold hexDigitChar
  split <;> decide

/-- No output character of the per-byte encoder is a literal space. -/
theorem space_not_mem_byteChars (b : Nat) : ' ' ∉ byteChars b := by
  unfold byteChars
  split_ifs with h1 h2
  · decide
  · intro hmem
    have hb : 45 ≤ b ∧ b ≤ 126 := by
      simp only [isSafeByte, Bool.or_eq_true, Bool.and_eq_true, decide_eq_true_eq,
        beq_iff_eq] at h2
      omega
    obtain ⟨hl, hr⟩ := hb
    interval_cases b <;> revert hmem <;> decide
  · intro hmem
    simp only [List.mem_cons, List.not_mem_nil, or_false] at hmem
    rcases hmem with hmem | hmem | hmem
    · exact absurd hmem (by decide)
    · exact hexDigitChar_ne_space _ hmem.symm
    · exact hexDigitChar_ne_space _ hmem.symm

/-- The full percent-encoder output never contains a literal space. -/
theorem space_not_mem_quotePlusChars (bs : List Nat) : ' ' ∉ quotePlusChars bs := by
  induction bs with
  | nil => intro h; cases h
  | cons b rest ih =>
    intro h
    rcases List.mem_append.mp h with h | h
    · exact space_not_mem_byteChars b h
    · exact ih h

/-- quote_plus output never contains a literal space. -/
theorem space_not_mem_quote_plus (s : String) : ' ' ∉ (quote_plus s).data :=
  space_not_mem_quotePlusChars _

/-- Claim C6: build_weather_query joins the city tokens with a single space
(for example New plus York becomes the single name New York), and for every
token list the percent-encoded fragment placed in the q parameter contains
no literal space character. -/
theorem city_join_and_no_space_in_encoding :
    String.intercalate " " ["New", "York"] = "New York" ∧
      ∀ (city_input : List String),
        ' ' ∉ (quote_plus (String.intercalate " " city_input)).data :=
  ⟨by decide, fun city_input => space_not_mem_quote_plus _⟩

/-- Numeric value of a hexadecimal digit character. -/
def hexVal (c : Char) : Nat :=
  if '0' ≤ c ∧ c ≤ '9' then c.toNat - 48
  else if 'A' ≤ c ∧ c ≤ 'F' then c.toNat - 55
  else if 'a' ≤ c ∧ c ≤ 'f' then c.toNat - 87
  else 0

/-- Standard URL query decoding, byte level: a percent sign followed by two
hex digits yields that byte, a plus sign yields a space, anything else is
its own ASCII byte. -/
def unquotePlusBytes : List Char → List Nat
  | [] => []
  | '%' :: h :: l :: rest => (hexVal h * 16 + hexVal l) :: unquotePlusBytes rest
  | '+' :: rest => 32 :: unquotePlusBytes rest
  | c :: rest => c.toNat :: unquotePlusBytes rest

/-- UTF-8 decoding of a byte sequence back to characters; none on malformed
input. -/
def utf8Decode : List Nat → Option (List Char)
  | [] => some []
  | b :: rest =>
    if b < 128 then (utf8Decode rest).map (fun cs => Char.ofNat b :: cs)
    else if b < 192 then none
    else if b < 224 then
      match rest with
      | b1 :: rest1 =>
        if 128 ≤ b1 ∧ b1 < 192 then
          (utf8Decode rest1).map (fun cs => Char.ofNat ((b - 192) * 64 + (b1 - 128)) :: cs)
        else none
      | [] => none
    else if b < 240 then
      match rest with
      | b1 :: b2 :: rest2 =>
        if (128 ≤ b1 ∧ b1 < 192) ∧ (128 ≤ b2 ∧ b2 < 192) then
          (utf8Decode rest2).map
            (fun cs => Char.ofNat ((b - 224) * 4096 + (b1 - 128) * 64 + (b2 - 128)) :: cs)
        else none
      | _ => none
    else
      match rest with
      | b1 :: b2 :: b3 :: rest3 =>
        if (128 ≤ b1 ∧ b1 < 192) ∧ (128 ≤ b2 ∧ b2 < 192) ∧ (128 ≤ b3 ∧ b3 < 192) then
          (utf8Decode rest3).map
            (fun cs =>
              Char.ofNat ((b - 240) * 262144 + (b1 - 128) * 4096 + (b2 - 128) * 64 + (b3 - 128)) :: cs)
        else none
      | _ => none

/-- Standard URL query decoding of a string: percent-decode the bytes, then
UTF-8 decode them. -/
def unquote_plus (s : String) : Option String :=
  (utf8Decode (unquotePlusBytes s.data)).map (fun cs => String.mk cs)

/-- Drops everything up to and including the first occurrence of the given
pattern. -/
def dropAfter (pat : List Char) : List Char → List Char
  | [] => []
  | c :: rest =>
    if List.isPrefixOf pat (c :: rest) then List.drop pat.length (c :: rest)
    else dropAfter pat rest

/-- The value of the q query parameter of a URL: the characters after the
first occurrence of the q parameter marker, up to the next parameter
separator. -/
def queryParamQ (url : String) : String :=
  String.mk (List.takeWhile (fun c => c != '&') (dropAfter ("?q=".data) url.data))

/-- Claim C4: building the query URL for the single city token Sao Paulo
(with the non-ASCII a-tilde) and URL-decoding the value of its q query
parameter yields the original city name back: encoding followed by decoding
is the identity on the city name. -/
theorem sao_paulo_roundtrip :
    unquote_plus (queryParamQ (build_weather_query ["São Paulo"] false "SECRETKEY")) =
      some "São Paulo" := by
  decide

/-- Splits a character list at every ampersand. -/
def splitAmpAux : List Char → List Char → List (List Char)
  | [], acc => [acc.reverse]
  | '&' :: rest, acc => acc.reverse :: splitAmpAux rest []
  | c :: rest, acc => splitAmpAux rest (c :: acc)

/-- The ampersand-separated components of a string. -/
def ampComponents (s : String) : List String :=
  (splitAmpAux s.data []).map (fun cs => String.mk cs)

/-- Claim C10: build_weather_query percent-encodes only the city name; the
api key is interpolated into the URL verbatim (the produced URL is a
key-independent prefix followed by the key itself, unencoded), so a key
containing the URL-reserved character ampersand alters the structure of the
generated query string: the clean three-component query q, units, appid
gains a fourth component. -/
theorem api_key_interpolated_verbatim :
    (∀ (city_input : List String) (imperial : Bool) (api_key : String),
        build_weather_query city_input imperial api_key =
          build_weather_query city_input imperial "" ++ api_key) ∧
      ampComponents (build_weather_query ["Paris"] false "the&key") =
        ["http://api.openweathermap.org/data/2.5/weather?q=Paris",
          "units=metric", "appid=the", "key"] := by
  constructor
  · intro city_input imperial api_key
    unfold build_weather_query
    simp only [String.append_assoc, String.append_empty]
  · decide

/-- Decoded JSON values, as json.loads produces them.  Integers and other
numbers are separated because the weather condition id is compared against
integer ranges; non-integer numbers are kept as their decimal rendering
(their exact arithmetic plays no role in any claim). -/
inductive JValue where
  | str (s : String)
  | int (n : Int)
  | num (rendered : String)
  | arr (elems : List JValue)
  | obj (fields : List (String × JValue))

/-- Python exceptions that subscripting a decoded JSON value can raise:
KeyError for a missing dictionary key, IndexError for an out-of-range list
index, TypeError for subscripting a value of the wrong shape. -/
inductive PyErr where
  | keyError (k : String)
  | indexError
  | typeError

/-- First binding of a key in a field list (Python dicts have unique keys). -/
def lookupField : List (String × JValue) → String → Option JValue
  | [], _ => none
  | (k, v) :: rest, key => if k = key then some v else lookupField rest key

/-- Pure dictionary lookup: some value when the JSON value is an object that
has the key, none otherwise. -/
def jLookup (j : JValue) (key : String) : Option JValue :=
  match j with
  | .obj fields => lookupField fields key
  | _ => none

/-- Python subscript j[key]: the value, or the exception it raises. -/
def jKey (j : JValue) (key : String) : Except PyErr JValue :=
  match j with
  | .obj _ =>
    match jLookup j key with
    | some v => Except.ok v
    | none => Except.error (PyErr.keyError key)
  | _ => Except.error PyErr.typeError

/-- Python subscript j[i] for a list index: the element, or the exception. -/
def jIndex (j : JValue) (i : Nat) : Except PyErr JValue :=
  match j with
  | .arr elems =>
    match elems.get? i with
    | some v => Except.ok v
    | none => Except.error PyErr.indexError
  | _ => Except.error PyErr.typeError

/-- Rendering of a scalar JSON value inside a Python f-string. -/
def jRender : JValue → String
  | .str s => s
  | .int n => toString n
  | .num rendered => rendered
  | .arr _ => ""
  | .obj _ => ""

/-- Embeds Python str.capitalize as used at src/main.py line 95: first
character uppercased, the rest lowercased. -/
def capitalize (s : String) : String :=
  match s.data with
  | [] => ""
  | c :: rest => String.mk (Char.toUpper c :: rest.map Char.toLower)

/-- The weather symbol and color chosen for a decoded id value.  The weather
id reaches the range tests through Python range membership, which holds only
for integers, so a non-integer id falls through every branch to the rainbow
fallback. -/
def displaySelect (v : JValue) : String × Color :=
  match v with
  | .int n => _select_weather_display_params n
  | _ => ("🌈", Color.RESET)

/-- The semantic fields display_weather_info prints, in print order.  The
style module (not under src/) contributes only escape codes and the centering
width, which are styling, not data; they are abstracted away. -/
structure DisplayOutput where
  city : String
  weather_symbol : String
  color : Color
  description : String
  temp_line : String

/-- Embeds display_weather_info from src/main.py lines 77-99: the four
subscript chains (name, weather[0].id, weather[0].description, main.temp)
evaluated in source order, each able to raise; on success the printed
fields, with the temperature line from line 99. -/
def display_weather_info (weather_data : JValue) (imperial : Bool) : Except PyErr DisplayOutput :=
  match jKey weather_data "name" with
  | .error e => .error e
  | .ok cityV =>
    match jKey weather_data "weather" with
    | .error e => .error e
    | .ok weatherV =>
      match jIndex weatherV 0 with
      | .error e => .error e
      | .ok w0 =>
        match jKey w0 "id" with
        | .error e => .error e
        | .ok idV =>
          match jKey w0 "description" with
          | .error e => .error e
          | .ok descV =>
            match jKey weather_data "main" with
            | .error e => .error e
            | .ok mainV =>
              match jKey mainV "temp" with
              | .error e => .error e
              | .ok tempV =>
                .ok { city := jRender cityV
                      weather_symbol := (displaySelect idV).1
                      color := (displaySelect idV).2
                      description := capitalize (jRender descV)
                      temp_line :=
                        "(" ++ jRender tempV ++ "°" ++ (if imperial then "F" else "C") ++ ")" }

/-- True exactly when the display call raised a Python exception. -/
def isPyError (r : Except PyErr DisplayOutput) : Bool :=
  match r with
  | .error _ => true
  | .ok _ => false

/-- The rendered temperature value a weather report carries at main.temp;
empty when absent. -/
def temp_of (wd : JValue) : String :=
  match jLookup wd "main" with
  | some m =>
    match jLookup m "temp" with
    | some t => jRender t
    | none => ""
  | none => ""

/-- Inversion of a successful Python subscript on a key. -/
theorem jKey_ok {j : JValue} {key : String} {v : JValue}
    (h : jKey j key = Except.ok v) :
    ∃ fields, j = JValue.obj fields ∧ lookupField fields key = some v := by
  cases j with
  | obj fields =>
    refine ⟨fields, rfl, ?_⟩
    simp only [jKey, jLookup] at h
    split at h
    · rename_i w hw
      cases h
      exact hw
    · exact Except.noConfusion h
  | str s => exact Except.noConfusion h
  | int n => exact Except.noConfusion h
  | num r => exact Except.noConfusion h
  | arr es => exact Except.noConfusion h

/-- Inversion of a successful Python subscript on a list index. -/
theorem jIndex_ok {j : JValue} {i : Nat} {v : JValue}
    (h : jIndex j i = Except.ok v) :
    ∃ elems, j = JValue.arr elems ∧ elems.get? i = some v := by
  cases j with
  | arr elems =>
    refine ⟨elems, rfl, ?_⟩
    simp only [jIndex] at h
    split at h
    · rename_i w hw
      cases h
      exact hw
    · exact Except.noConfusion h
  | str s => exact Except.noConfusion h
  | int n => exact Except.noConfusion h
  | num r => exact Except.noConfusion h
  | obj fields => exact Except.noConfusion h

/-- Inversion of a successful display call: every subscript in
display_weather_info succeeded and the output fields are the printed ones. -/
theorem display_ok_inversion (wd : JValue) (imperial : Bool) (out : DisplayOutput)
    (h : display_weather_info wd imperial = Except.ok out) :
    ∃ fields cityV elems ws idV descV ms tempV,
      wd = JValue.obj fields ∧
      lookupField fields "name" = some cityV ∧
      lookupField fields "weather" = some (JValue.arr elems) ∧
      elems.get? 0 = some (JValue.obj ws) ∧
      lookupField ws "id" = some idV ∧
      lookupField ws "description" = some descV ∧
      lookupField fields "main" = some (JValue.obj ms) ∧
      lookupField ms "temp" = some tempV ∧
      out = { city := jRender cityV
              weather_symbol := (displaySelect idV).1
              color := (displaySelect idV).2
              description := capitalize (jRender descV)
              temp_line :=
                "(" ++ jRender tempV ++ "°" ++ (if imperial then "F" else "C") ++ ")" } := by
  unfold display_weather_info at h
  split at h
  · exact Except.noConfusion h
  rename_i cityV hname
  split at h
  · exact Except.noConfusion h
  rename_i weatherV hweather
  split at h
  · exact Except.noConfusion h
  rename_i w0 hw0
  split at h
  · exact Except.noConfusion h
  rename_i idV hid
  split at h
  · exact Except.noConfusion h
  rename_i descV hdesc
  split at h
  · exact Except.noConfusion h
  rename_i mainV hmain
  split at h
  · exact Except.noConfusion h
  rename_i tempV htemp
  cases h
  obtain ⟨fields, hwd, hname2⟩ := jKey_ok hname
  subst hwd
  obtain ⟨fieldsW, hEqW, hweather2⟩ := jKey_ok hweather
  injection hEqW with hEqW
  subst hEqW
  obtain ⟨elems, hwv, hget⟩ := jIndex_ok hw0
  subst hwv
  obtain ⟨ws, hw0obj, hid2⟩ := jKey_ok hid
  subst hw0obj
  obtain ⟨wsD, hEqD, hdesc2⟩ := jKey_ok hdesc
  injection hEqD with hEqD
  subst hEqD
  obtain ⟨fieldsM, hEqM, hmain2⟩ := jKey_ok hmain
  injection hEqM with hEqM
  subst hEqM
  obtain ⟨ms, hmobj, htemp2⟩ := jKey_ok htemp
  subst hmobj
  exact ⟨fields, cityV, elems, ws, idV, descV, ms, tempV, rfl, hname2, hweather2, hget,
    hid2, hdesc2, hmain2, htemp2, rfl⟩

/-- Claim C9: display_weather_info is partial at its public interface.  For
any decoded JSON value that lacks the key name, lacks weather or has an
empty weather list, or lacks main or main.temp, the call raises an uncaught
Python exception (modelled by the error side of the embedding, which carries
no user-facing message from the error taxonomy of the spec): the listed
response fields are a genuine precondition, and the error branch of the
lookups is reachable whenever a field is absent. -/
theorem display_weather_info_errors_on_missing_fields :
    ∀ (wd : JValue) (imperial : Bool),
      (jLookup wd "name" = none ∨
        jLookup wd "weather" = none ∨
        jLookup wd "weather" = some (JValue.arr []) ∨
        jLookup wd "main" = none ∨
        (∃ m, jLookup wd "main" = some m ∧ jLookup m "temp" = none)) →
      isPyError (display_weather_info wd imperial) = true := by
  intro wd imperial h
  cases hdisp : display_weather_info wd imperial with
  | error e => rfl
  | ok out =>
    exfalso
    obtain ⟨fields, cityV, elems, ws, idV, descV, ms, tempV, hwd, hname, hweather, hget,
      hid, hdesc, hmain, htemp, hout⟩ := display_ok_inversion wd imperial out hdisp
    subst hwd
    rcases h with h | h | h | h | ⟨m, hm, ht⟩
    · simp only [jLookup] at h
      rw [h] at hname
      exact Option.noConfusion hname
    · simp only [jLookup] at h
      rw [h] at hweather
      exact Option.noConfusion hweather
    · simp only [jLookup] at h
      rw [h] at hweather
      injection hweather with hweather
      injection hweather with hweather
      subst hweather
      exact Option.noConfusion hget
    · simp only [jLookup] at h
      rw [h] at hmain
      exact Option.noConfusion hmain
    · simp only [jLookup] at hm
      rw [hm] at hmain
      injection hmain with hmain
      subst hmain
      simp only [jLookup] at ht
      rw [ht] at htemp
      exact Option.noConfusion htemp

/-- Witness for claim C9: the empty JSON object lacks the key name, and the
display call on it raises. -/
theorem display_missing_name_witness :
    isPyError (display_weather_info (JValue.obj []) false) = true :=
  display_weather_info_errors_on_missing_fields (JValue.obj []) false (Or.inl rfl)

/-- Boolean test that the first string ends with the second. -/
def strEndsWith (s p : String) : Bool :=
  List.isSuffixOf p.data s.data

/-- A list is a prefix of itself followed by anything. -/
theorem isPrefixOf_append_self (l m : List Char) : List.isPrefixOf l (l ++ m) = true := by
  induction l with
  | nil => cases m <;> rfl
  | cons a as ih => simp [List.isPrefixOf, ih]

/-- Appending a string on the left preserves the suffix test. -/
theorem strEndsWith_append (a b : String) : strEndsWith (a ++ b) b = true := by
  simp only [strEndsWith, List.isSuffixOf, String.data_append, List.reverse_append]
  exact isPrefixOf_append_self _ _

/-- The Paris weather report used by the spec test fixture. -/
def paris_weather : JValue :=
  JValue.obj
    [("name", JValue.str "Paris"),
      ("weather",
        JValue.arr [JValue.obj [("id", JValue.int 800), ("description", JValue.str "clear sky")]]),
      ("main", JValue.obj [("temp", JValue.int 15)])]

/-- What display_weather_info prints for the Paris report in metric mode. -/
def paris_out : DisplayOutput :=
  { city := "Paris"
    weather_symbol := "🔆"
    color := Color.YELLOW
    description := "Clear sky"
    temp_line := "(15°C)" }

/-- Counterexample for claim C8: on the Paris report in
metric mode the printed temperature line is exactly the string open-paren
15 degree C close-paren, and that line does not end with the temperature
value followed by the degree suffix alone — a closing parenthesis follows
the suffix — so claim C8 as stated is false at this input. -/
theorem temp_line_does_not_end_with_suffix_alone :
    Except.map (fun o => o.temp_line) (display_weather_info paris_weather false) =
      Except.ok "(15°C)" ∧
    strEndsWith "(15°C)" ("15" ++ "°C") = false :=
  ⟨rfl, rfl⟩

/-- Claim C8 (amended): for every weather report the display call accepts,
the printed temperature line ends with the temperature value, followed by
the degree suffix (F with the degree sign when the imperial flag is true, C
with the degree sign when it is false), followed by a closing parenthesis;
the whole line is the parenthesized value-suffix pair. -/
theorem temp_line_ends_with_value_suffix_paren :
    ∀ (wd : JValue) (imperial : Bool) (out : DisplayOutput),
      display_weather_info wd imperial = Except.ok out →
      out.temp_line = "(" ++ temp_of wd ++ "°" ++ (if imperial then "F" else "C") ++ ")" ∧
        strEndsWith out.temp_line
          (temp_of wd ++ "°" ++ (if imperial then "F" else "C") ++ ")") = true := by
  intro wd imperial out h
  obtain ⟨fields, cityV, elems, ws, idV, descV, ms, tempV, hwd, hname, hweather, hget,
    hid, hdesc, hmain, htemp, hout⟩ := display_ok_inversion wd imperial out h
  subst hwd
  subst hout
  have htof : temp_of (JValue.obj fields) = jRender tempV := by
    simp only [temp_of, jLookup, hmain, htemp]
  refine ⟨by rw [htof], ?_⟩
  rw [htof]
  have hsplit :
      "(" ++ jRender tempV ++ "°" ++ (if imperial then "F" else "C") ++ ")" =
        "(" ++ (jRender tempV ++ "°" ++ (if imperial then "F" else "C") ++ ")") := by
    simp [String.append_assoc]
  show strEndsWith ("(" ++ jRender tempV ++ "°" ++ (if imperial then "F" else "C") ++ ")")
    (jRender tempV ++ "°" ++ (if imperial then "F" else "C") ++ ")") = true
  rw [hsplit]
  exact strEndsWith_append _ _

/-- Witness for the amended claim C8 at the Paris report in metric mode. -/
theorem temp_line_witness :
    paris_out.temp_line = "(" ++ temp_of paris_weather ++ "°" ++ "C" ++ ")" ∧
      strEndsWith paris_out.temp_line (temp_of paris_weather ++ "°" ++ "C" ++ ")") = true :=
  temp_line_ends_with_value_suffix_paren paris_weather false paris_out rfl

/-- An HTTP response as urllib delivers it to the caller: a readable body on
status 200, or an HTTPError exception carrying the status code on any error
status. -/
inductive HTTPResponse where
  | success (body : String)
  | httpError (code : Nat)

/-- How a call to get_weather_data ends.  sys.exit with a message prints the
message and terminates the process with the non-zero exit code 1 (exited);
an exception that no handler catches terminates the process with a traceback
and a non-zero exit code but no fixed message (uncaughtHTTPError). -/
inductive FetchOutcome where
  | returned (data : JValue)
  | exited (msg : String)
  | uncaughtHTTPError (code : Nat)

/-- Embeds get_weather_data from src/main.py lines 55-74, together with the
number of urlopen calls it performs.  The server argument gives the response
to the k-th GET of the same query_url: line 58 issues request 0 outside any
try block, so an HTTPError there propagates uncaught; line 61 issues request
1 inside the try block whose handlers map 401, 404 and other codes to
sys.exit messages; line 70 reads the body of the second response and lines
71-74 decode it with json_loads, exiting on decode failure. -/
def get_weather_data_run (server : Nat → HTTPResponse)
    (json_loads : String → Option JValue) : FetchOutcome × Nat :=
  match server 0 with
  | .httpError code => (FetchOutcome.uncaughtHTTPError code, 1)
  | .success _ =>
    match server 1 with
    | .httpError code =>
      if code = 401 then (FetchOutcome.exited "Access denied. Check your API key.", 2)
      else if code = 404 then
        (FetchOutcome.exited "Can\x27t find weather data for this city.", 2)
      else (FetchOutcome.exited ("Something went wrong... (" ++ toString code ++ ")"), 2)
    | .success body =>
      match json_loads body with
      | some data => (FetchOutcome.returned data, 2)
      | none => (FetchOutcome.exited "Couldn\x27t read the server response.", 2)

/-- The outcome of a get_weather_data call. -/
def get_weather_data (server : Nat → HTTPResponse)
    (json_loads : String → Option JValue) : FetchOutcome :=
  (get_weather_data_run server json_loads).1

/-- Claim C1 fails on the code: when the server answers every GET with an
HTTP error status — any status, 401 and 404 included — the unguarded first
urlopen at src/main.py line 58 raises before the guarded call is reached, so
the process dies with an uncaught HTTPError after one request and none of
the fixed messages is ever produced. -/
theorem http_error_status_is_uncaught :
    ∀ (code : Nat) (json_loads : String → Option JValue),
      get_weather_data_run (fun _ => HTTPResponse.httpError code) json_loads =
        (FetchOutcome.uncaughtHTTPError code, 1) := by
  intro code json_loads
  rfl

/-- Claim C2 fails on the code: on every invocation whose GET succeeds,
get_weather_data performs two HTTP requests — lines 58 and 61 of
src/main.py — before decoding the response body, not exactly one. -/
theorem successful_fetch_performs_two_requests :
    ∀ (body : String) (json_loads : String → Option JValue),
      (get_weather_data_run (fun _ => HTTPResponse.success body) json_loads).2 = 2 := by
  intro body json_loads
  simp only [get_weather_data_run]
  cases hjl : json_loads body <;> simp [hjl]

/-- Claim C7: when the HTTP GET succeeds but the body is not valid JSON,
get_weather_data terminates the process via sys.exit with exactly the
message about an unreadable server response (a non-zero exit, no retry, no
partial result); when the body is valid JSON, the decoded object is
returned. -/
theorem decode_failure_exits_decode_success_returns :
    ∀ (json_loads : String → Option JValue) (body : String),
      (json_loads body = none →
        get_weather_data (fun _ => HTTPResponse.success body) json_loads =
          FetchOutcome.exited "Couldn\x27t read the server response.") ∧
      (∀ data, json_loads body = some data →
        get_weather_data (fun _ => HTTPResponse.success body) json_loads =
          FetchOutcome.returned data) := by
  intro json_loads body
  constructor
  · intro h
    simp only [get_weather_data, get_weather_data_run, h]
  · intro data h
    simp only [get_weather_data, get_weather_data_run, h]

/-- Witness for claim C7: a body no decoder accepts makes the fetch exit
with the fixed message, and a body decoding to the integer one is returned
as that value. -/
theorem decode_behavior_witness :
    get_weather_data (fun _ => HTTPResponse.success "nonsense") (fun _ => none) =
        FetchOutcome.exited "Couldn\x27t read the server response." ∧
      get_weather_data (fun _ => HTTPResponse.success "1") (fun _ => some (JValue.int 1)) =
        FetchOutcome.returned (JValue.int 1) :=
  ⟨(decode_failure_exits_decode_success_returns (fun _ => none) "nonsense").1 rfl,
    (decode_failure_exits_decode_success_returns (fun _ => some (JValue.int 1)) "1").2
      (JValue.int 1) rfl⟩
